import Mathlib

/-!
Verification development for the query-generation tool (`new_app.py`).

The program's core logic is embedded shallowly:
* Python strings are modelled as `List Char` (`str` converts a Lean string
  literal to its character list).
* `str.split(sep)` is `pySplit`, `str.strip()` is `pyStrip`, and the `in`
  containment test is `pyIn`; all are executable structural recursions.
* The JSON-like reply value navigated by `parse_response` is the inductive
  `PyVal`; `dict.get` and `[0]` indexing are `pyGet` and `pyIndex0`, returning
  `Except` so that Python exceptions (AttributeError / IndexError / TypeError)
  are explicit values.
* The network is an oracle `HttpOutcome` (a response with status code,
  content type and optional parsed JSON body, or a raised transport
  exception); `verify_api_key` and `generate_query`'s post-call handling are
  functions of that oracle.
* The "Generate Query" button handler is `handlerTrace`, mapping one
  submission to the ordered list of observable events it produces.
-/

/-- Character list of a string literal (Python `str` values). -/
def str (s : String) : List Char := s.data

/-- Whitespace characters removed by Python `str.strip()`. -/
def isPySpace (c : Char) : Bool :=
  c = ' ' || c = '\t' || c = '\n' || c = '\r' || c = '\x0b' || c = '\x0c'

/-- Python `s.strip()`: remove leading and trailing whitespace. -/
def pyStrip (s : List Char) : List Char :=
  ((s.dropWhile isPySpace).reverse.dropWhile isPySpace).reverse

/-- Index of the leftmost occurrence of `sep` in `s` (`str.find` when hit). -/
def findSub (sep : List Char) : List Char → Option Nat
  | [] => if sep.isEmpty then some 0 else Option.none
  | c :: rest =>
    if sep.isPrefixOf (c :: rest) then some 0
    else (findSub sep rest).map (fun n => n + 1)

/-- Python `sub in s` substring containment. -/
def pyIn (sub s : List Char) : Bool := (findSub sub s).isSome

/-- Fueled worker for `pySplit`; each step consumes at least one character of
`s` when `sep` is nonempty, so fuel `s.length + 1` never runs out. -/
def pySplitAux : Nat → List Char → List Char → List (List Char)
  | 0, _, s => [s]
  | Nat.succ fuel, sep, s =>
    match findSub sep s with
    | Option.none => [s]
    | some i => s.take i :: pySplitAux fuel sep (s.drop (i + sep.length))

/-- Python `s.split(sep)`: pieces of `s` between successive leftmost
non-overlapping occurrences of `sep`. -/
def pySplit (sep s : List Char) : List (List Char) :=
  if sep.isEmpty then [s] else pySplitAux (s.length + 1) sep s

/-- Prefix of `s` strictly before the first occurrence of `sep`
(all of `s` when `sep` does not occur). -/
def upTo (sep s : List Char) : List Char :=
  match findSub sep s with
  | Option.none => s
  | some j => s.take j

/-- Suffix of `s` strictly after the first occurrence of `sep`,
or `Option.none` when `sep` does not occur in `s`. -/
def afterFirst (sep s : List Char) : Option (List Char) :=
  (findSub sep s).map (fun i => s.drop (i + sep.length))

/-- Fence marker opening a SQL code block in the model reply. -/
def sqlMarker : List Char := str "```sql"

/-- Bare closing fence marker. -/
def fenceMarker : List Char := str "```"

/-- Explanation section marker in the model reply. -/
def explMarker : List Char := str "**Explanation:**"

/-- Note section marker in the model reply. -/
def noteMarker : List Char := str "**Note:**"

/-- Sentinel answer when the reply holds no SQL code block. -/
def sentinel : List Char := str "No SQL query generated."

/-- Line 154: `content.split('```sql')[1].split('```')[0].strip()` when
`'```sql' in content`, else the sentinel. -/
def parse_sql (content : List Char) : List Char :=
  if pyIn sqlMarker content then
    pyStrip ((pySplit fenceMarker ((pySplit sqlMarker content).getD 1 [])).getD 0 [])
  else sentinel

/-- Line 155: `content.split('**Explanation:**')[1].split('**Note:**')[0].strip()`
when the marker occurs, else the empty string. -/
def parse_explanation (content : List Char) : List Char :=
  if pyIn explMarker content then
    pyStrip ((pySplit noteMarker ((pySplit explMarker content).getD 1 [])).getD 0 [])
  else []

/-- Line 156: `content.split('**Note:**')[1].strip()` when the marker occurs,
else the empty string. -/
def parse_note (content : List Char) : List Char :=
  if pyIn noteMarker content then
    pyStrip ((pySplit noteMarker content).getD 1 [])
  else []

/-- Claim C4 as worded: everything between the first occurrence of the
```sql marker and the next occurrence of a bare ``` fence, trimmed;
the sentinel when the marker is absent. -/
def specSqlClaim (content : List Char) : List Char :=
  match afterFirst sqlMarker content with
  | Option.none => sentinel
  | some rest => pyStrip (upTo fenceMarker rest)

/-- Claim C5 as worded: everything between the first occurrence of the
explanation marker and the next occurrence of the note marker (or the end of
the text), trimmed; empty when the marker is absent. -/
def specExplanationClaim (content : List Char) : List Char :=
  match afterFirst explMarker content with
  | Option.none => []
  | some rest => pyStrip (upTo noteMarker rest)

/-- Claim C3 as worded: everything after the first occurrence of the note
marker, trimmed; empty when the marker is absent. -/
def specNoteClaim (content : List Char) : List Char :=
  match afterFirst noteMarker content with
  | Option.none => []
  | some rest => pyStrip rest

/-- What line 154 actually computes, phrased by first occurrences: the
segment after the first ```sql marker is cut at the next ```sql marker (end
of text if none), then at its first bare ``` fence, then trimmed. -/
def sqlFirstSegment (content : List Char) : List Char :=
  match afterFirst sqlMarker content with
  | Option.none => sentinel
  | some rest => pyStrip (upTo fenceMarker (upTo sqlMarker rest))

/-- What line 155 actually computes: the segment after the first explanation
marker is cut at the next explanation marker (end of text if none), then at
its first note marker, then trimmed. -/
def explanationFirstSegment (content : List Char) : List Char :=
  match afterFirst explMarker content with
  | Option.none => []
  | some rest => pyStrip (upTo noteMarker (upTo explMarker rest))

/-- What line 156 actually computes: the segment between the first and second
occurrences of the note marker (everything after the first when it occurs
only once), trimmed. -/
def noteFirstSegment (content : List Char) : List Char :=
  match afterFirst noteMarker content with
  | Option.none => []
  | some rest => pyStrip (upTo noteMarker rest)

/-- Python/JSON values navigated by `parse_response` (line 153). -/
inductive PyVal where
  | str : List Char → PyVal
  | int : Int → PyVal
  | list : List PyVal → PyVal
  | dict : List (String × PyVal) → PyVal
  | none : PyVal

/-- Python `v.get(k, d)`: defined on dicts, `AttributeError` on anything
else. -/
def pyGet : PyVal → String → PyVal → Except String PyVal
  | PyVal.dict kvs, k, d =>
    Except.ok (match kvs.lookup k with
      | some v => v
      | Option.none => d)
  | _, _, _ => Except.error "AttributeError"

/-- Python `v[0]`: head of a list (or one-character string), `IndexError`
when empty, `KeyError` on a dict (no integer keys here), `TypeError`
otherwise. -/
def pyIndex0 : PyVal → Except String PyVal
  | PyVal.list [] => Except.error "IndexError"
  | PyVal.list (x :: _) => Except.ok x
  | PyVal.str [] => Except.error "IndexError"
  | PyVal.str (c :: _) => Except.ok (PyVal.str [c])
  | PyVal.dict _ => Except.error "KeyError"
  | _ => Except.error "TypeError"

/-- Line 153:
`response.get('candidates', [{}])[0].get('content', {}).get('parts', [{}])[0].get('text', '')`,
with each Python exception surfaced as an `Except.error`. -/
def getContent (response : PyVal) : Except String PyVal :=
  match pyGet response "candidates" (PyVal.list [PyVal.dict []]) with
  | Except.error e => Except.error e
  | Except.ok cands =>
    match pyIndex0 cands with
    | Except.error e => Except.error e
    | Except.ok c0 =>
      match pyGet c0 "content" (PyVal.dict []) with
      | Except.error e => Except.error e
      | Except.ok ct =>
        match pyGet ct "parts" (PyVal.list [PyVal.dict []]) with
        | Except.error e => Except.error e
        | Except.ok parts =>
          match pyIndex0 parts with
          | Except.error e => Except.error e
          | Except.ok p0 => pyGet p0 "text" (PyVal.str [])

/-- Lines 152-157: navigate to the text, then extract the SQL query,
explanation and note. A non-string text value makes the later `in` tests
raise `TypeError`. -/
def parse_response (response : PyVal) :
    Except String (List Char × List Char × List Char) :=
  match getContent response with
  | Except.error e => Except.error e
  | Except.ok (PyVal.str content) =>
    Except.ok (parse_sql content, parse_explanation content, parse_note content)
  | Except.ok _ => Except.error "TypeError"

/-- The `{"error": str(e)}` dict returned by `generate_query` on failure
(lines 141-149). -/
def errorReply (msg : List Char) : PyVal :=
  PyVal.dict [("error", PyVal.str msg)]

/-- Outcome of one `requests.post` call: either a response (status code,
Content-Type header, parsed JSON body or `Option.none` for a malformed body)
or a raised transport exception. -/
inductive HttpOutcome where
  | exc : List Char → HttpOutcome
  | resp : Nat → List Char → Option PyVal → HttpOutcome

/-- Lines 73-82: `verify_api_key` returns `status_code == 200`, and `false`
when the post call raises. -/
def verify_api_key (_apiKey : List Char) (o : HttpOutcome) : Bool :=
  match o with
  | HttpOutcome.exc _ => false
  | HttpOutcome.resp status _ _ => status == 200

/-- Lines 110-149: what `generate_query` returns once the post call's outcome
is known. `raise_for_status` raises a caught `HTTPError` exactly for client
and server error statuses, `400 <= status < 600` (any other wire status in
100-999 proceeds); a Content-Type without `application/json` raises a caught
`ValueError`, a malformed JSON body raises a caught decode error; every
failure path returns an `{"error": message}` dict, and a successful call
returns the parsed body. -/
def generate_query_result (o : HttpOutcome) : PyVal :=
  match o with
  | HttpOutcome.exc msg => errorReply msg
  | HttpOutcome.resp status ct body =>
    if 400 ≤ status ∧ status < 600 then errorReply (str "HTTPError")
    else if pyIn (str "application/json") ct = false then
      errorReply (str "Unexpected content type")
    else
      match body with
      | Option.none => errorReply (str "JSONDecodeError")
      | some v => v

/-- Arguments of `generate_query` that feed its prompt f-string (lines
92-109). Fields guarded by an `is not None` test are `Option (List Char)`
(`Option.none` is Python `None`); `target_system`, `validation_type` and
`target_table` are interpolated unconditionally. Tabular values carry their
textual rendering, which the spec leaves host-dependent. -/
structure RequestFields where
  source_system : Option (List Char)
  target_system : List Char
  validation_type : List Char
  source_table : Option (List Char)
  target_table : List Char
  source_condition : Option (List Char)
  source_column : Option (List Char)
  source_logic : Option (List Char)
  target_condition : Option (List Char)
  target_column : Option (List Char)
  target_logic : Option (List Char)

/-- The literal substituted for absent optional fields. -/
def notProvided : List Char := str "Not provided"

/-- Python `x if x is not None else "Not provided"`. -/
def renderOpt (o : Option (List Char)) : List Char := o.getD notProvided

/-- The prompt f-string of `generate_query` (lines 93-109), byte for byte. -/
def prompt (f : RequestFields) : List Char :=
  str "\n    You are a database expert. Generate a database query according to selected Source System and target system technology and based on following details and :\n\n    "
  ++ str "Source System: " ++ renderOpt f.source_system
  ++ str "\n    " ++ str "Target System: " ++ f.target_system
  ++ str "\n    " ++ str "Validation Type: " ++ f.validation_type
  ++ str "\n    " ++ str "Source Table: " ++ renderOpt f.source_table
  ++ str "\n    " ++ str "Target Table: " ++ f.target_table
  ++ str "\n    " ++ str "Source Condition: " ++ renderOpt f.source_condition
  ++ str "\n    " ++ str "Source Column: " ++ renderOpt f.source_column
  ++ str "\n    " ++ str "Source Logic: " ++ renderOpt f.source_logic
  ++ str "\n    " ++ str "Target Condition: " ++ renderOpt f.target_condition
  ++ str "\n    " ++ str "Target Column: " ++ renderOpt f.target_column
  ++ str "\n    " ++ str "Target Logic: " ++ renderOpt f.target_logic
  ++ str "\n\n    Generate an appropriate query:\n    "

/-- A concrete submission in which every field is supplied by the form but
the source column text box was left empty (Python `""`, not `None`). -/
def exFields : RequestFields :=
  { source_system := some (str "SQL Server")
    target_system := str "Oracle"
    validation_type := str "Select"
    source_table := some (str "c1\tc2\n0 1 2")
    target_table := str "c1\tc2\n0 3 4"
    source_condition := some (str "Order by")
    source_column := some []
    source_logic := some (str "join on id")
    target_condition := some (str "Group by")
    target_column := some (str "id")
    target_logic := some (str "sum amount") }

/-- Observable events of one "Generate Query" button press. -/
inductive Event where
  | verifyCall : Event
  | generateCall : Event
  | showError : List Char → Event
deriving DecidableEq

/-- Error message when no API key was entered (line 162). -/
def msgAddKey : List Char := str "Please add your Google Gemini API key."

/-- Error message when the target table is missing or empty (line 164). -/
def msgTargetTable : List Char := str "Please enter target table details."

/-- Error message when key verification fails (line 168). -/
def msgInvalidKey : List Char := str "API key is invalid. Please check and try again."

/-- One press of the button: the API key text, the pasted target table
(`Option.none` for Python `None`, rows possibly empty as in a header-only
`DataFrame`), and the outcome of the verification post call. -/
structure Submission where
  api_key : List Char
  target_table : Option (List (List Char))
  verifyOutcome : HttpOutcome

/-- Python `target_table is None or target_table.empty` (line 163). -/
def tableMissing : Option (List (List Char)) → Bool
  | Option.none => true
  | some rows => rows.isEmpty

/-- Lines 160-172: the guard chain of the "Generate Query" handler, as the
ordered list of events it emits. `verify_api_key` is consulted only in the
final branch, mirroring the call on line 167. -/
def handlerTrace (s : Submission) : List Event :=
  if s.api_key.isEmpty then [Event.showError msgAddKey]
  else if tableMissing s.target_table then [Event.showError msgTargetTable]
  else if verify_api_key s.api_key s.verifyOutcome then
    [Event.verifyCall, Event.generateCall]
  else [Event.verifyCall, Event.showError msgInvalidKey]

/-- A nonempty separator never occurs in the empty string. -/
theorem findSub_nil (sep : List Char) (hsep : sep.isEmpty = false) :
    findSub sep [] = Option.none := by
  simp [findSub, hsep]

/-- The head of a fueled split is the prefix before the first occurrence. -/
theorem pySplitAux_getD_zero (fuel : Nat) (sep t : List Char) :
    (pySplitAux (fuel + 1) sep t).getD 0 [] = upTo sep t := by
  unfold pySplitAux upTo
  cases hf : findSub sep t <;> simp [hf]

/-- Element 0 of `s.split(sep)` is the prefix of `s` before the first
occurrence of `sep` (all of `s` when `sep` is absent). -/
theorem pySplit_getD_zero (sep : List Char) (hsep : sep.isEmpty = false)
    (s : List Char) : (pySplit sep s).getD 0 [] = upTo sep s := by
  unfold pySplit
  rw [if_neg (by simp [hsep])]
  exact pySplitAux_getD_zero s.length sep s

/-- Element 1 of `s.split(sep)`, when `sep` occurs, is the part of `s`
after that occurrence and before the following one. -/
theorem pySplit_getD_one (sep : List Char) (hsep : sep.isEmpty = false)
    (s : List Char) (i : Nat) (hf : findSub sep s = some i) :
    (pySplit sep s).getD 1 [] = upTo sep (s.drop (i + sep.length)) := by
  cases s with
  | nil => rw [findSub_nil sep hsep] at hf; cases hf
  | cons c t =>
      unfold pySplit
      rw [if_neg (by simp [hsep])]
      show (pySplitAux (t.length + 1 + 1) sep (c :: t)).getD 1 [] = _
      unfold pySplitAux
      rw [hf]
      rw [List.getD_cons_succ]
      exact pySplitAux_getD_zero t.length sep _

/-- C3: the claim fails on the code. In
`"**Note:**a**Note:**b"` the note marker occurs twice; line 156's
`split('**Note:**')[1]` yields `"a"`, while everything after the first
occurrence of the marker, trimmed, is `"a**Note:**b"`. -/
theorem c3_counterexample :
    parse_note (str "**Note:**a**Note:**b") = str "a" ∧
    specNoteClaim (str "**Note:**a**Note:**b") = str "a**Note:**b" ∧
    parse_note (str "**Note:**a**Note:**b") ≠
      specNoteClaim (str "**Note:**a**Note:**b") := by
  refine ⟨rfl, rfl, ?_⟩
  decide

/-- C3 amended: the note is the text between the first and second
occurrences of `**Note:**` (everything after the first when it occurs only
once), trimmed of whitespace; empty when the marker is absent. -/
theorem c3_note_between_markers (content : List Char) :
    parse_note content = noteFirstSegment content := by
  unfold parse_note noteFirstSegment afterFirst pyIn
  cases hf : findSub noteMarker content with
  | none => simp [hf]
  | some i =>
      simp only [hf, Option.isSome_some, if_true, Option.map_some']
      rw [pySplit_getD_one noteMarker rfl content i hf]

/-- C4: the claim fails on the code. In `"```sqlab`````sql"` line 154's
`split('```sql')[1]` first truncates at the second occurrence of the
```sql marker, producing `"ab``"`, while the text between the first
```sql marker and the next bare ``` fence, trimmed, is `"ab"`. -/
theorem c4_counterexample :
    parse_sql (str "```sqlab`````sql") = str "ab``" ∧
    specSqlClaim (str "```sqlab`````sql") = str "ab" ∧
    parse_sql (str "```sqlab`````sql") ≠ specSqlClaim (str "```sqlab`````sql") := by
  refine ⟨rfl, rfl, ?_⟩
  decide

/-- C4 amended: the SQL query is the segment after the first ```sql marker,
cut at the following ```sql marker (end of text if none) and then at its
first bare ``` fence, trimmed; when the marker is absent it is the fixed
sentinel. For texts with at most one ```sql occurrence this coincides with
the claim as written. -/
theorem c4_sql_extraction (content : List Char) :
    parse_sql content = sqlFirstSegment content := by
  unfold parse_sql sqlFirstSegment afterFirst pyIn
  cases hf : findSub sqlMarker content with
  | none => simp [hf]
  | some i =>
      simp only [hf, Option.isSome_some, if_true, Option.map_some']
      rw [pySplit_getD_one sqlMarker rfl content i hf]
      rw [pySplit_getD_zero fenceMarker rfl]

/-- C5: the claim fails on the code. With two explanation markers, line
155's `split('**Explanation:**')[1]` truncates at the second occurrence, so
the code yields `"A"` while the text between the first marker and the next
`**Note:**`, trimmed, is `"A**Explanation:**B"`. -/
theorem c5_counterexample :
    parse_explanation (str "**Explanation:**A**Explanation:**B**Note:**C") = str "A" ∧
    specExplanationClaim (str "**Explanation:**A**Explanation:**B**Note:**C") =
      str "A**Explanation:**B" ∧
    parse_explanation (str "**Explanation:**A**Explanation:**B**Note:**C") ≠
      specExplanationClaim (str "**Explanation:**A**Explanation:**B**Note:**C") := by
  refine ⟨rfl, rfl, ?_⟩
  decide

/-- C5 amended: the explanation is the segment after the first
`**Explanation:**` marker, cut at the following `**Explanation:**` marker
(end of text if none) and then at its first `**Note:**` marker, trimmed;
empty when the marker is absent. For texts with at most one explanation
marker this coincides with the claim as written. -/
theorem c5_explanation_extraction (content : List Char) :
    parse_explanation content = explanationFirstSegment content := by
  unfold parse_explanation explanationFirstSegment afterFirst pyIn
  cases hf : findSub explMarker content with
  | none => simp [hf]
  | some i =>
      simp only [hf, Option.isSome_some, if_true, Option.map_some']
      rw [pySplit_getD_one explMarker rfl content i hf]
      rw [pySplit_getD_zero noteMarker rfl]

/-- Extending an infix on the left keeps it an infix. -/
theorem isInfix_skip (x : List Char) {y z : List Char} (h : y.IsInfix z) :
    y.IsInfix (x ++ z) := by
  obtain ⟨a, b, hab⟩ := h
  exact ⟨x ++ a, b, by rw [← hab]; simp⟩

/-- A chunk read off at the head of a right-nested concatenation. -/
theorem isInfix_here (a b c : List Char) : (a ++ b).IsInfix (a ++ (b ++ c)) :=
  ⟨[], c, by simp⟩

set_option maxRecDepth 8192 in
/-- C1: the claim fails on the code. `exFields` leaves the source column
empty (Python `""`): an absent optional field in the claim's sense. Line
102 substitutes `"Not provided"` only for `None`, so the produced prompt
contains no occurrence of `"Not provided"` at all. -/
theorem c1_counterexample :
    exFields.source_column = some [] ∧
    pyIn notProvided (prompt exFields) = false := by
  refine ⟨rfl, ?_⟩
  decide

/-- C1 amended: an optional field is rendered as `"Not provided"` exactly
when its value is Python `None` (in the app, only an unpasted table);
every non-`None` value — including the empty string of an empty column or
logic box and the `--Select--` sentinels — appears in the prompt verbatim
after its label, as do the unconditionally interpolated fields. -/
theorem c1_amended_rendering (f : RequestFields) :
    (f.source_system = Option.none →
      (str "Source System: " ++ notProvided).IsInfix (prompt f)) ∧
    (∀ v, f.source_system = some v →
      (str "Source System: " ++ v).IsInfix (prompt f)) ∧
    (str "Target System: " ++ f.target_system).IsInfix (prompt f) ∧
    (str "Validation Type: " ++ f.validation_type).IsInfix (prompt f) ∧
    (f.source_table = Option.none →
      (str "Source Table: " ++ notProvided).IsInfix (prompt f)) ∧
    (∀ v, f.source_table = some v →
      (str "Source Table: " ++ v).IsInfix (prompt f)) ∧
    (str "Target Table: " ++ f.target_table).IsInfix (prompt f) ∧
    (f.source_condition = Option.none →
      (str "Source Condition: " ++ notProvided).IsInfix (prompt f)) ∧
    (∀ v, f.source_condition = some v →
      (str "Source Condition: " ++ v).IsInfix (prompt f)) ∧
    (f.source_column = Option.none →
      (str "Source Column: " ++ notProvided).IsInfix (prompt f)) ∧
    (∀ v, f.source_column = some v →
      (str "Source Column: " ++ v).IsInfix (prompt f)) ∧
    (f.source_logic = Option.none →
      (str "Source Logic: " ++ notProvided).IsInfix (prompt f)) ∧
    (∀ v, f.source_logic = some v →
      (str "Source Logic: " ++ v).IsInfix (prompt f)) ∧
    (f.target_condition = Option.none →
      (str "Target Condition: " ++ notProvided).IsInfix (prompt f)) ∧
    (∀ v, f.target_condition = some v →
      (str "Target Condition: " ++ v).IsInfix (prompt f)) ∧
    (f.target_column = Option.none →
      (str "Target Column: " ++ notProvided).IsInfix (prompt f)) ∧
    (∀ v, f.target_column = some v →
      (str "Target Column: " ++ v).IsInfix (prompt f)) ∧
    (f.target_logic = Option.none →
      (str "Target Logic: " ++ notProvided).IsInfix (prompt f)) ∧
    (∀ v, f.target_logic = some v →
      (str "Target Logic: " ++ v).IsInfix (prompt f)) := by
  refine ⟨?_, ?_, ?_, ?_, ?_, ?_, ?_, ?_, ?_, ?_, ?_, ?_, ?_, ?_, ?_, ?_, ?_, ?_, ?_⟩
  · intro h
    simp only [prompt, renderOpt, h, Option.getD_none, List.append_assoc]
    repeat first | exact isInfix_here _ _ _ | apply isInfix_skip
  · intro v h
    simp only [prompt, renderOpt, h, Option.getD_some, List.append_assoc]
    repeat first | exact isInfix_here _ _ _ | apply isInfix_skip
  · simp only [prompt, List.append_assoc]
    repeat first | exact isInfix_here _ _ _ | apply isInfix_skip
  · simp only [prompt, List.append_assoc]
    repeat first | exact isInfix_here _ _ _ | apply isInfix_skip
  · intro h
    simp only [prompt, renderOpt, h, Option.getD_none, List.append_assoc]
    repeat first | exact isInfix_here _ _ _ | apply isInfix_skip
  · intro v h
    simp only [prompt, renderOpt, h, Option.getD_some, List.append_assoc]
    repeat first | exact isInfix_here _ _ _ | apply isInfix_skip
  · simp only [prompt, List.append_assoc]
    repeat first | exact isInfix_here _ _ _ | apply isInfix_skip
  · intro h
    simp only [prompt, renderOpt, h, Option.getD_none, List.append_assoc]
    repeat first | exact isInfix_here _ _ _ | apply isInfix_skip
  · intro v h
    simp only [prompt, renderOpt, h, Option.getD_some, List.append_assoc]
    repeat first | exact isInfix_here _ _ _ | apply isInfix_skip
  · intro h
    simp only [prompt, renderOpt, h, Option.getD_none, List.append_assoc]
    repeat first | exact isInfix_here _ _ _ | apply isInfix_skip
  · intro v h
    simp only [prompt, renderOpt, h, Option.getD_some, List.append_assoc]
    repeat first | exact isInfix_here _ _ _ | apply isInfix_skip
  · intro h
    simp only [prompt, renderOpt, h, Option.getD_none, List.append_assoc]
    repeat first | exact isInfix_here _ _ _ | apply isInfix_skip
  · intro v h
    simp only [prompt, renderOpt, h, Option.getD_some, List.append_assoc]
    repeat first | exact isInfix_here _ _ _ | apply isInfix_skip
  · intro h
    simp only [prompt, renderOpt, h, Option.getD_none, List.append_assoc]
    repeat first | exact isInfix_here _ _ _ | apply isInfix_skip
  · intro v h
    simp only [prompt, renderOpt, h, Option.getD_some, List.append_assoc]
    repeat first | exact isInfix_here _ _ _ | apply isInfix_skip
  · intro h
    simp only [prompt, renderOpt, h, Option.getD_none, List.append_assoc]
    repeat first | exact isInfix_here _ _ _ | apply isInfix_skip
  · intro v h
    simp only [prompt, renderOpt, h, Option.getD_some, List.append_assoc]
    repeat first | exact isInfix_here _ _ _ | apply isInfix_skip
  · intro h
    simp only [prompt, renderOpt, h, Option.getD_none, List.append_assoc]
    repeat first | exact isInfix_here _ _ _ | apply isInfix_skip
  · intro v h
    simp only [prompt, renderOpt, h, Option.getD_some, List.append_assoc]
    repeat first | exact isInfix_here _ _ _ | apply isInfix_skip

/-- C1 witness: a `None` source table renders as `Not provided`, and the
empty-string source column of `exFields` appears verbatim (as nothing)
after its label. -/
theorem c1_amended_rendering_witness :
    (str "Source Table: " ++ notProvided).IsInfix
      (prompt { exFields with source_table := Option.none }) ∧
    (str "Source Column: " ++ ([] : List Char)).IsInfix (prompt exFields) := by
  constructor
  · exact (c1_amended_rendering { exFields with source_table := Option.none }).2.2.2.2.1 rfl
  · exact (c1_amended_rendering exFields).2.2.2.2.2.2.2.2.2.2.1 [] rfl

/-- C2: the claim is right and the code is wrong. Line 153 defends every
`.get` with a default, so a reply dict with no `candidates` key navigates to
the empty string; but when `candidates` is present and bound to an empty
list — as in a safety-blocked reply — the `[0]` subscript raises
`IndexError`, contradicting "never raises for any reply structure". -/
theorem c2_empty_candidates_raises :
    getContent (PyVal.dict []) = Except.ok (PyVal.str []) ∧
    getContent (PyVal.dict [("candidates", PyVal.list [])]) =
      Except.error "IndexError" :=
  ⟨rfl, rfl⟩

/-- C6: the claim fails on the code. With an empty API key and a missing
target table, line 161's key check fires first: generation is still never
attempted, but the user sees the add-key message, not
"Please enter target table details.". -/
theorem c6_counterexample :
    tableMissing (Submission.mk [] Option.none (HttpOutcome.exc [])).target_table = true ∧
    handlerTrace (Submission.mk [] Option.none (HttpOutcome.exc [])) =
      [Event.showError msgAddKey] ∧
    Event.showError msgTargetTable ∉
      handlerTrace (Submission.mk [] Option.none (HttpOutcome.exc [])) := by
  refine ⟨rfl, rfl, ?_⟩
  decide

/-- C6 amended: whenever the target table is absent or empty no generation
request is issued, and provided an API key was entered the user is shown
"Please enter target table details." (with an empty key the add-key message
takes precedence). -/
theorem c6_amended_guard (s : Submission) (h : tableMissing s.target_table = true) :
    Event.generateCall ∉ handlerTrace s ∧
    (s.api_key.isEmpty = false → handlerTrace s = [Event.showError msgTargetTable]) := by
  by_cases hk : s.api_key.isEmpty = true
  · refine ⟨?_, ?_⟩
    · simp [handlerTrace, hk]
    · intro hc
      rw [hk] at hc
      exact absurd hc (by simp)
  · have hk' : s.api_key.isEmpty = false := by simpa using hk
    refine ⟨?_, fun _ => ?_⟩
    · simp [handlerTrace, hk', h]
    · simp [handlerTrace, hk', h]

/-- C6 witness: a submission with a key but an empty pasted table. -/
theorem c6_amended_guard_witness :
    Event.generateCall ∉
      handlerTrace (Submission.mk (str "k") (some []) (HttpOutcome.exc [])) ∧
    handlerTrace (Submission.mk (str "k") (some []) (HttpOutcome.exc [])) =
      [Event.showError msgTargetTable] := by
  have h := c6_amended_guard (Submission.mk (str "k") (some []) (HttpOutcome.exc [])) rfl
  exact ⟨h.1, h.2 rfl⟩

/-- C7: `verify_api_key` is true exactly when the verification call comes
back with status 200, the success status of the endpoint; every transport
exception and every non-200 status yields false, and the function is total
over keys and outcomes (the source catches `requests.RequestException`, the
root of every exception the transport raises). -/
theorem c7_verify_iff_success (k : List Char) (o : HttpOutcome) :
    verify_api_key k o = true ↔ ∃ ct body, o = HttpOutcome.resp 200 ct body := by
  cases o with
  | exc m =>
      constructor
      · intro h
        simp [verify_api_key] at h
      · rintro ⟨ct, body, hh⟩
        cases hh
  | resp status ct body =>
      constructor
      · intro h
        have h200 : status = 200 := by simpa [verify_api_key] using h
        subst h200
        exact ⟨ct, body, rfl⟩
      · rintro ⟨ct', body', hh⟩
        cases hh
        simp [verify_api_key]

/-- C7 witness: a 200 response verifies; an exception and a 403 do not. -/
theorem c7_verify_iff_success_witness :
    verify_api_key (str "k") (HttpOutcome.resp 200 [] Option.none) = true ∧
    verify_api_key (str "k") (HttpOutcome.exc (str "timeout")) = false ∧
    verify_api_key (str "k") (HttpOutcome.resp 403 [] Option.none) = false := by
  refine ⟨?_, rfl, rfl⟩
  exact (c7_verify_iff_success (str "k") (HttpOutcome.resp 200 [] Option.none)).mpr
    ⟨[], Option.none, rfl⟩

/-- C8: a generation call happens only in a trace that performs the
verification call immediately before it with a successful result, and when
verification fails the trace is the verification call followed by the error
message beginning "API key is invalid." with no generation call. -/
theorem c8_verify_precedes_generate (s : Submission) :
    (Event.generateCall ∈ handlerTrace s →
      handlerTrace s = [Event.verifyCall, Event.generateCall] ∧
      verify_api_key s.api_key s.verifyOutcome = true) ∧
    (s.api_key.isEmpty = false → tableMissing s.target_table = false →
      verify_api_key s.api_key s.verifyOutcome = false →
      handlerTrace s = [Event.verifyCall, Event.showError msgInvalidKey] ∧
      Event.generateCall ∉ handlerTrace s ∧
      List.isPrefixOf (str "API key is invalid.") msgInvalidKey = true) := by
  constructor
  · intro hmem
    unfold handlerTrace at hmem ⊢
    by_cases h1 : s.api_key.isEmpty = true
    · rw [if_pos h1] at hmem
      simp at hmem
    · rw [if_neg h1] at hmem ⊢
      by_cases h2 : tableMissing s.target_table = true
      · rw [if_pos h2] at hmem
        simp at hmem
      · rw [if_neg h2] at hmem ⊢
        by_cases h3 : verify_api_key s.api_key s.verifyOutcome = true
        · rw [if_pos h3] at hmem ⊢
          exact ⟨rfl, h3⟩
        · rw [if_neg h3] at hmem
          simp at hmem
  · intro h1 h2 h3
    unfold handlerTrace
    rw [if_neg (by simp [h1]), if_neg (by simp [h2]), if_neg (by simp [h3])]
    refine ⟨rfl, by decide, by decide⟩

/-- C8 witness: a valid-key submission generates right after verifying; an
invalid-key submission verifies, shows the invalid-key message and never
generates. -/
theorem c8_verify_precedes_generate_witness :
    (handlerTrace (Submission.mk (str "k") (some [str "r"]) (HttpOutcome.resp 200 [] Option.none)) =
      [Event.verifyCall, Event.generateCall] ∧
     verify_api_key (str "k") (HttpOutcome.resp 200 [] Option.none) = true) ∧
    (handlerTrace (Submission.mk (str "k") (some [str "r"]) (HttpOutcome.exc [])) =
      [Event.verifyCall, Event.showError msgInvalidKey] ∧
     Event.generateCall ∉
       handlerTrace (Submission.mk (str "k") (some [str "r"]) (HttpOutcome.exc [])) ∧
     List.isPrefixOf (str "API key is invalid.") msgInvalidKey = true) := by
  constructor
  · exact (c8_verify_precedes_generate
      (Submission.mk (str "k") (some [str "r"]) (HttpOutcome.resp 200 [] Option.none))).1
      (by decide)
  · exact (c8_verify_precedes_generate
      (Submission.mk (str "k") (some [str "r"]) (HttpOutcome.exc []))).2 rfl rfl rfl

/-- C9: prompt construction is a pure total function of the request fields —
equal field records give byte-for-byte identical prompts, with no effects
and no failure for any `RequestFields` value. -/
theorem c9_prompt_deterministic (f g : RequestFields) (h : f = g) :
    prompt f = prompt g := by
  rw [h]

/-- C9 witness at a concrete record. -/
theorem c9_prompt_deterministic_witness : prompt exFields = prompt exFields :=
  c9_prompt_deterministic exFields exFields rfl

/-- A reply dict with no `candidates` key parses to the sentinel triple. -/
theorem parse_response_no_candidates (kvs : List (String × PyVal))
    (h : kvs.lookup "candidates" = Option.none) :
    parse_response (PyVal.dict kvs) = Except.ok (sentinel, [], []) := by
  have hg : getContent (PyVal.dict kvs) = Except.ok (PyVal.str []) := by
    simp [getContent, pyGet, pyIndex0, h]
  unfold parse_response
  rw [hg]
  rfl

/-- C10: every failure of the generation call — a raised transport
exception, a client or server error status (400-599, the statuses
`raise_for_status` raises for), a Content-Type without `application/json`,
or a malformed JSON body — returns an `{"error": message}` dict instead of
raising, and `parse_response` maps any dict without a `candidates` key —
the error dicts included — to exactly `("No SQL query generated.", "", "")`. -/
theorem c10_failure_collapses_to_sentinel :
    (∀ msg, generate_query_result (HttpOutcome.exc msg) = errorReply msg) ∧
    (∀ status ct body, 400 ≤ status → status < 600 →
      ∃ m, generate_query_result (HttpOutcome.resp status ct body) = errorReply m) ∧
    (∀ status ct body, pyIn (str "application/json") ct = false →
      ∃ m, generate_query_result (HttpOutcome.resp status ct body) = errorReply m) ∧
    (∀ status ct,
      ∃ m, generate_query_result (HttpOutcome.resp status ct Option.none) = errorReply m) ∧
    (∀ msg, parse_response (errorReply msg) = Except.ok (sentinel, [], [])) ∧
    (∀ kvs, kvs.lookup "candidates" = Option.none →
      parse_response (PyVal.dict kvs) = Except.ok (sentinel, [], [])) := by
  refine ⟨fun msg => rfl, ?_, ?_, ?_, ?_, fun kvs h => parse_response_no_candidates kvs h⟩
  · intro status ct body h1 h2
    refine ⟨str "HTTPError", ?_⟩
    simp only [generate_query_result]
    rw [if_pos ⟨h1, h2⟩]
  · intro status ct body hct
    simp only [generate_query_result]
    by_cases h : 400 ≤ status ∧ status < 600
    · exact ⟨str "HTTPError", by rw [if_pos h]⟩
    · exact ⟨str "Unexpected content type", by rw [if_neg h, if_pos hct]⟩
  · intro status ct
    simp only [generate_query_result]
    by_cases h : 400 ≤ status ∧ status < 600
    · exact ⟨str "HTTPError", by rw [if_pos h]⟩
    · by_cases hct : pyIn (str "application/json") ct = false
      · exact ⟨str "Unexpected content type", by rw [if_neg h, if_pos hct]⟩
      · exact ⟨str "JSONDecodeError", by rw [if_neg h, if_neg hct]⟩
  · intro msg
    exact parse_response_no_candidates _ rfl

/-- C10 witness: a transport exception, a 500 status, a 200 response with a
non-JSON content type, a 200 JSON response with a malformed body, and
parsing the resulting error dict. -/
theorem c10_failure_collapses_to_sentinel_witness :
    generate_query_result (HttpOutcome.exc (str "boom")) = errorReply (str "boom") ∧
    (∃ m, generate_query_result (HttpOutcome.resp 500 [] Option.none) = errorReply m) ∧
    (∃ m, generate_query_result
      (HttpOutcome.resp 200 (str "text/html") (some (PyVal.dict []))) = errorReply m) ∧
    (∃ m, generate_query_result
      (HttpOutcome.resp 200 (str "application/json") Option.none) = errorReply m) ∧
    parse_response (errorReply (str "boom")) = Except.ok (sentinel, [], []) := by
  refine ⟨c10_failure_collapses_to_sentinel.1 (str "boom"),
    c10_failure_collapses_to_sentinel.2.1 500 [] Option.none (by omega) (by omega),
    c10_failure_collapses_to_sentinel.2.2.1 200 (str "text/html") (some (PyVal.dict []))
      (by decide),
    c10_failure_collapses_to_sentinel.2.2.2.1 200 (str "application/json"),
    c10_failure_collapses_to_sentinel.2.2.2.2.1 (str "boom")⟩
